import Mathlib

/-!
Verification of the snorlax issue-triage pipeline.

Shallow embedding of the triage decision pipeline of the repository:
the rule engine (`TriageOptimizer.apply_smart_rules`), the response-cache
keyed AI decision maker (`TriageOptimizer.analyze_with_claude_optimized`),
the cost accounting, the external search clients, the decision normalizer
(`_transform_analysis_result` in `api/triage.py`) and the batch triage loop
(`batch_triage_issues_task`).

Modelling conventions:
- Python floats (similarity scores, dollar costs) are modelled as exact
  rationals `ℚ`; Python ints as `ℤ`/`ℕ` as appropriate.
- Python dicts with a fixed key set become structures; keys that may be
  absent become `Option` fields (`none` = key absent).
- SHA-256 is modelled by its preimage string: every claim about cache keys
  concerns only equality / inequality of keys, which a collision-resistant
  hash preserves, and the digest bytes themselves play no role.
- Network and LLM calls become oracle parameters returning `Except`;
  a Python `try/except` block around such a call becomes a `match` on the
  `Except` value.  The functions are total, which models "never raises".
-/

namespace Snorlax

/-! ## Basic data model -/

/-- Issue dict as produced by `_get_issue_details` and consumed by the
triage optimizer.  `body` models `issue.get('body', '')` (missing body
conflated with the empty string), `author` models the optional
`issue.get('author', 'user')` key. -/
structure Issue where
  issue_number : ℕ
  title : String
  body : String := ""
  author : Option String := none
  state : String := "open"
deriving Repr, DecidableEq

/-- One element of the `similar_issues` list returned by
`search_similar_issues` (an issue-kind evidence item). -/
structure SimilarIssue where
  issue_number : ℕ
  title : String
  similarity : ℚ
  state : String
deriving Repr, DecidableEq

/-- One element of the `similar_prs` list returned by `search_similar_prs`. -/
structure SimilarPR where
  pr_number : ℕ
  title : String
  similarity : ℚ
  state : String
deriving Repr, DecidableEq

/-- One element of the `code_matches` list returned by `search_in_codebase`. -/
structure CodeMatch where
  filename : String
  similarity : ℚ
  start_line : ℕ
  end_line : ℕ
deriving Repr, DecidableEq

/-- One element of the `doc_links` list returned by `_find_relevant_docs`.
`start_line` is optional: the source guards it with `if 'start_line' in doc`. -/
structure DocLink where
  filename : String
  similarity : ℚ
  start_line : Option ℕ := none
deriving Repr, DecidableEq

/-- An entry of a `related_links` list in a decision dict. -/
structure RelatedLink where
  text : String
  url : String
  source : String
deriving Repr, DecidableEq

/-! ## Rule engine (`TriageOptimizer.apply_smart_rules`) -/

/-- `TriageOptimizer.DUPLICATE_THRESHOLD` (auto-close duplicates). -/
def DUPLICATE_THRESHOLD : ℚ := 0.95

/-- `TriageOptimizer.DOCS_THRESHOLD` (auto-respond from docs). -/
def DOCS_THRESHOLD : ℚ := 0.80

/-- `TriageOptimizer.CODE_THRESHOLD` (feature exists in code). -/
def CODE_THRESHOLD : ℚ := 0.80

/-- Python `needle in hay` substring test, via `String.splitOn`:
a (nonempty) needle occurs in `hay` iff splitting on it yields more
than one piece. -/
def strContains (hay needle : String) : Bool :=
  (hay.splitOn needle).length != 1

/-- The `feature_indicators` keyword list of `_is_feature_request`. -/
def feature_indicators : List String :=
  ["add", "support", "implement", "allow", "enable",
   "would be nice", "could we", "feature request",
   "enhancement", "suggestion"]

/-- `TriageOptimizer._is_feature_request`: any indicator occurs in the
lower-cased title or body. -/
def is_feature_request (issue : Issue) : Bool :=
  let title := issue.title.toLower
  let body := issue.body.toLower
  feature_indicators.any (fun indicator =>
    strContains title indicator || strContains body indicator)

/-- Result dict of a matched rule in `apply_smart_rules`.  All three rule
branches populate exactly these keys. -/
structure RuleDecision where
  decision : String
  primary_message : String
  evidence_bullets : List String
  draft_response : String
  action_button_text : String
  action_button_style : String
  related_links : List RelatedLink
  confidence : ℚ
  cost_saved : ℚ
  rule_matched : String
deriving Repr, DecidableEq

/-- Python `int(sim * 100)` on a nonnegative similarity (truncation =
floor for nonnegative arguments). -/
def pctInt (q : ℚ) : ℤ := ⌊q * 100⌋

/-- `TriageOptimizer._generate_duplicate_response`. -/
def generate_duplicate_response (issue : Issue) (duplicate : SimilarIssue) : String :=
  "Hi @" ++ (issue.author.getD "user") ++ "! 👋\n\n" ++
  "This is a duplicate of #" ++ toString duplicate.issue_number ++
  ", which is currently " ++ duplicate.state ++ ".\n\n" ++
  "Please follow the original issue for updates. If you have additional information that's not already covered there, feel free to comment on the original issue.\n\n" ++
  "Thanks for reporting!"

/-- `TriageOptimizer._generate_docs_response`. -/
def generate_docs_response (issue : Issue) (doc : DocLink) : String :=
  "Hi @" ++ (issue.author.getD "user") ++ "! 👋\n\n" ++
  "This is covered in our documentation: **" ++ doc.filename ++ "**\n\n" ++
  "You can find detailed information there about how to " ++ issue.title.toLower ++ ".\n\n" ++
  "If you have questions after reading the docs, feel free to ask!"

/-- `TriageOptimizer._generate_exists_response`. -/
def generate_exists_response (issue : Issue) (code : CodeMatch) : String :=
  "Hi @" ++ (issue.author.getD "user") ++ "! 👋\n\n" ++
  "Good news! This feature already exists in the codebase.\n\n" ++
  "You can find it in: **" ++ code.filename ++ "** (lines " ++
  toString code.start_line ++ "-" ++ toString code.end_line ++ ")\n\n" ++
  "Check the documentation for usage instructions. Let us know if you need help using it!"

/-- The RULE 1 result dict (exact duplicate) of `apply_smart_rules`. -/
def duplicateDecision (issue : Issue) (duplicate : SimilarIssue)
    (repo_url : Option String) : RuleDecision :=
  { decision := "CLOSE_DUPLICATE"
  , primary_message := "This is the same as Issue #" ++ toString duplicate.issue_number
  , evidence_bullets :=
      [ toString (pctInt duplicate.similarity) ++ "% similarity match"
      , "Original: " ++ duplicate.title
      , "Status: " ++ duplicate.state ]
  , draft_response := generate_duplicate_response issue duplicate
  , action_button_text :=
      "Post & Close as Duplicate of #" ++ toString duplicate.issue_number
  , action_button_style := "danger"
  , related_links :=
      [ { text := "Original Issue #" ++ toString duplicate.issue_number
        , url := match repo_url with
            | some u => u ++ "/issues/" ++ toString duplicate.issue_number
            | none => "#/issues/" ++ toString duplicate.issue_number
        , source := "github" } ]
  , confidence := duplicate.similarity
  , cost_saved := 0.02
  , rule_matched := "exact_duplicate" }

/-- The RULE 2 result dict (found in documentation) of `apply_smart_rules`. -/
def docsDecision (issue : Issue) (doc : DocLink)
    (repo_url : Option String) : RuleDecision :=
  let doc_url := match repo_url with
    | some u =>
        let base := u ++ "/blob/main/" ++ doc.filename
        match doc.start_line with
        | some l => base ++ "#L" ++ toString l
        | none => base
    | none => "#/docs/" ++ doc.filename
  { decision := "ANSWER_FROM_DOCS"
  , primary_message := "This is already explained in the documentation"
  , evidence_bullets :=
      [ "Found in " ++ doc.filename
      , toString (pctInt doc.similarity) ++ "% relevance"
      , "Documentation is up to date" ]
  , draft_response := generate_docs_response issue doc
  , action_button_text := "Post Answer & Close"
  , action_button_style := "success"
  , related_links :=
      [ { text := "Documentation: " ++ doc.filename
        , url := doc_url
        , source := if repo_url.isSome then "github" else "docs" } ]
  , confidence := doc.similarity
  , cost_saved := 0.02
  , rule_matched := "found_in_docs" }

/-- The RULE 3 result dict (feature exists in code) of `apply_smart_rules`. -/
def existsDecision (issue : Issue) (code : CodeMatch)
    (repo_url : Option String) : RuleDecision :=
  let code_url := match repo_url with
    | some u => u ++ "/blob/main/" ++ code.filename ++ "#L" ++ toString code.start_line
    | none => "#/code/" ++ code.filename ++ "#L" ++ toString code.start_line
  { decision := "CLOSE_EXISTS"
  , primary_message := "This feature already exists in the codebase"
  , evidence_bullets :=
      [ "Found in " ++ code.filename
      , "Lines " ++ toString code.start_line ++ "-" ++ toString code.end_line
      , toString (pctInt code.similarity) ++ "% match" ]
  , draft_response := generate_exists_response issue code
  , action_button_text := "Post Explanation & Close"
  , action_button_style := "primary"
  , related_links :=
      [ { text := "Code: " ++ code.filename ++ ":" ++ toString code.start_line
        , url := code_url
        , source := if repo_url.isSome then "github" else "internal" } ]
  , confidence := code.similarity
  , cost_saved := 0.02
  , rule_matched := "exists_in_code" }

/-- RULE 3 of `apply_smart_rules` (reached when rules 1 and 2 fell through):
top code match above `CODE_THRESHOLD` and the issue looks like a feature
request; otherwise `None`. -/
def applyRuleCode (issue : Issue) (code_matches : List CodeMatch)
    (repo_url : Option String) : Option RuleDecision :=
  match code_matches.head? with
  | some code =>
      if CODE_THRESHOLD < code.similarity then
        if is_feature_request issue then some (existsDecision issue code repo_url)
        else none
      else none
  | none => none

/-- RULE 2 of `apply_smart_rules` (reached when rule 1 fell through), then
falling through to rule 3. -/
def applyRuleDocs (issue : Issue) (code_matches : List CodeMatch)
    (doc_links : List DocLink) (repo_url : Option String) : Option RuleDecision :=
  match doc_links.head? with
  | some doc =>
      if DOCS_THRESHOLD < doc.similarity then some (docsDecision issue doc repo_url)
      else applyRuleCode issue code_matches repo_url
  | none => applyRuleCode issue code_matches repo_url

/-- `TriageOptimizer.apply_smart_rules`: the three early-return rules in
priority order, `none` when no rule matches.  The Python guard
`if similar_issues and similar_issues[0].get('similarity', 0) > ...`
becomes a match on the head of the list. -/
def apply_smart_rules (issue : Issue) (similar_issues : List SimilarIssue)
    (code_matches : List CodeMatch) (doc_links : List DocLink)
    (repo_url : Option String := none) : Option RuleDecision :=
  match similar_issues.head? with
  | some duplicate =>
      if DUPLICATE_THRESHOLD < duplicate.similarity then
        some (duplicateDecision issue duplicate repo_url)
      else applyRuleDocs issue code_matches doc_links repo_url
  | none => applyRuleDocs issue code_matches doc_links repo_url

/-! ## Cache stores

Both the `claude_response_cache` and the `internet_search_cache` tables are
key → (payload, expires_at) maps with upsert writes (`ON CONFLICT ... DO
UPDATE`) and lazy expiry on read (`expires_at > now`).  Time is modelled in
seconds as `ℕ`. -/

/-- A cache table: list of (key, payload, expires_at) rows, one row per key. -/
def CacheStore (α : Type) : Type := List (String × α × ℕ)

/-- The empty cache table. -/
def CacheStore.empty (α : Type) : CacheStore α := ([] : List (String × α × ℕ))

/-- Row lookup by key (`SELECT ... WHERE cache_key = %s`). -/
def cacheFind {α : Type} : CacheStore α → String → Option (α × ℕ)
  | [], _ => none
  | (k', v, e) :: t, k => if k' = k then some (v, e) else cacheFind t k

/-- Read with lazy expiry: a row counts only while `expires_at > now`
(`result[1] > datetime.now()` in `_check_response_cache` /
`_check_internet_cache`). -/
def cacheGet {α : Type} (c : CacheStore α) (now : ℕ) (k : String) : Option α :=
  match cacheFind c k with
  | some (v, e) => if now < e then some v else none
  | none => none

/-- Upsert (`INSERT ... ON CONFLICT (cache_key) DO UPDATE`): replaces the
row with key `k` or appends a fresh one. -/
def cacheUpsert {α : Type} : CacheStore α → String → α → ℕ → CacheStore α
  | [], k, v, e => [(k, v, e)]
  | (k', v', e') :: t, k, v, e =>
      if k' = k then (k, v, e) :: t else (k', v', e') :: cacheUpsert t k v e

/-- Looking a key up right after upserting it finds the fresh row. -/
theorem cacheFind_cacheUpsert_self {α : Type} (c : CacheStore α)
    (k : String) (v : α) (e : ℕ) : cacheFind (cacheUpsert c k v e) k = some (v, e) := by
  induction c with
  | nil => simp [cacheUpsert, cacheFind]
  | cons hd t ih =>
      obtain ⟨k', v', e'⟩ := hd
      by_cases h : k' = k
      · simp [cacheUpsert, cacheFind, h]
      · simp [cacheUpsert, cacheFind, h, ih]

/-! ## External search clients (`search_stackoverflow`, `search_github_issues`) -/

/-- An item of the Stack Exchange API response (`data['items']`). -/
structure SOItem where
  title : String
  link : String
  score : ℤ
  is_answered : Option Bool := none
deriving Repr, DecidableEq

/-- A Stack Overflow search result as built by `search_stackoverflow`. -/
structure SOResult where
  title : String
  url : String
  score : ℤ
  accepted : Bool
deriving Repr, DecidableEq

/-- An item of the GitHub search API response. -/
structure GHItem where
  title : String
  html_url : String
  repository_url : String
  state : String
  comments : ℕ
deriving Repr, DecidableEq

/-- A GitHub search result as built by `search_github_issues`. -/
structure GHResult where
  title : String
  url : String
  repo : String
  state : String
  comments : ℕ
deriving Repr, DecidableEq

/-- An HTTP response from a search API: status code plus parsed items.
A transport failure (timeout, DNS, ...) is the `Except.error` case of the
oracle, which the Python `try/except` absorbs. -/
structure HttpReply (ι : Type) where
  status_code : ℕ
  items : List ι
deriving Repr, DecidableEq

/-- Parameters of the Stack Exchange request that the claims can observe:
the query and the optional API key (`params['key']` is set only when
`self.stackoverflow_key` is present). -/
structure SORequest where
  q : String
  key : Option String
deriving Repr, DecidableEq

/-- Python `s.split('/')[-1]`. -/
def lastPathComponent (s : String) : String :=
  ((s.splitOn "/").getLast?).getD ""

/-- Cache key preimage of `search_stackoverflow`
(`sha256("stackoverflow:" + title)`; SHA-256 modelled by its preimage). -/
def soCacheKey (issue : Issue) : String := "stackoverflow:" ++ issue.title

/-- Cache key preimage of `search_github_issues`. -/
def ghCacheKey (issue : Issue) : String := "github:" ++ issue.title

/-- `TriageOptimizer.search_stackoverflow`.  Internet-cache check first
(24 h TTL); on miss, the HTTP oracle runs: transport errors and non-200
statuses yield `[]`, a 200 keeps the first 5 items, maps them and caches
them.  No URL deduplication is performed. -/
def search_stackoverflow (stackoverflow_key : Option String)
    (http : SORequest → Except Unit (HttpReply SOItem)) (now : ℕ)
    (icache : CacheStore (List SOResult)) (issue : Issue) :
    List SOResult × CacheStore (List SOResult) :=
  let cache_key := soCacheKey issue
  match cacheGet icache now cache_key with
  | some cached => (cached, icache)
  | none =>
    match http { q := issue.title, key := stackoverflow_key } with
    | .error _ => ([], icache)
    | .ok response =>
      if response.status_code = 200 then
        let results := (response.items.take 5).map (fun item =>
          { title := item.title
          , url := item.link
          , score := item.score
          , accepted := item.is_answered.getD false : SOResult })
        (results, cacheUpsert icache cache_key results (now + 86400))
      else ([], icache)

/-- `TriageOptimizer.search_github_issues`.  Returns `[]` immediately
without a GitHub token (`if not self.github_token: return []`); otherwise
same cache / error / top-5 behaviour as the Stack Overflow search, again
with no URL deduplication. -/
def search_github_issues (github_token : Option String)
    (http : String → Except Unit (HttpReply GHItem)) (now : ℕ)
    (icache : CacheStore (List GHResult)) (issue : Issue) :
    List GHResult × CacheStore (List GHResult) :=
  match github_token with
  | none => ([], icache)
  | some _ =>
    let cache_key := ghCacheKey issue
    match cacheGet icache now cache_key with
    | some cached => (cached, icache)
    | none =>
      match http (issue.title ++ " type:issue") with
      | .error _ => ([], icache)
      | .ok response =>
        if response.status_code = 200 then
          let results := (response.items.take 5).map (fun item =>
            { title := item.title
            , url := item.html_url
            , repo := lastPathComponent item.repository_url
            , state := item.state
            , comments := item.comments : GHResult })
          (results, cacheUpsert icache cache_key results (now + 86400))
        else ([], icache)

/-! ## Context dict and the response-cache key -/

/-- The `context` dict handed to `analyze_with_claude_optimized`.  Fields
model dict keys; `top_similar` is `Option` because `_get_cache_key` reads
it with `context.get('top_similar', [])`, i.e. it may be absent. -/
structure ContextDict where
  top_similar : Option (List SimilarIssue) := none
  similar_issues : List SimilarIssue := []
  similar_prs : List SimilarPR := []
  code_matches : List CodeMatch := []
  doc_links : List DocLink := []
  stackoverflow : List SOResult := []
  github_issues : List GHResult := []
deriving Repr, DecidableEq

/-- The context dict literal built by `analyze_issue_for_triage`
(`api/triage.py` lines 552–559): top-3 of each evidence list under the keys
`similar_issues`, `similar_prs`, `code_matches`, `doc_links`, plus the two
internet-search result lists.  The literal contains no `top_similar` key. -/
def mkTriageContext (similar_issues : List SimilarIssue)
    (similar_prs : List SimilarPR) (code_matches : List CodeMatch)
    (doc_links : List DocLink) (stackoverflow_results : List SOResult)
    (github_results : List GHResult) : ContextDict :=
  { top_similar := none
  , similar_issues := similar_issues.take 3
  , similar_prs := similar_prs.take 3
  , code_matches := code_matches.take 3
  , doc_links := doc_links.take 3
  , stackoverflow := stackoverflow_results
  , github_issues := github_results }

/-- Rendering of one similar-issue dict inside `json.dumps`. -/
def dumpsSimilarItem (s : SimilarIssue) : String :=
  "\x7b\"issue_number\": " ++ toString s.issue_number ++
  ", \"title\": \"" ++ s.title ++
  "\", \"similarity\": " ++ toString s.similarity ++
  ", \"state\": \"" ++ s.state ++ "\"\x7d"

/-- `json.dumps` of a list of similar-issue dicts; `json.dumps([]) = "[]"`. -/
def dumpsSimilarList (l : List SimilarIssue) : String :=
  "[" ++ String.intercalate ", " (l.map dumpsSimilarItem) ++ "]"

/-- SHA-256 modelled by its preimage (see the module header): the claims
concern only equality / inequality of cache keys. -/
def sha256_hexdigest (s : String) : String := s

/-- `TriageOptimizer._get_cache_key`:
`sha256(f"{title}:{body[:500]}:{json.dumps(context.get('top_similar', [])[:3])}")`. -/
def get_cache_key (issue : Issue) (context : ContextDict) : String :=
  let content := issue.title ++ ":" ++ issue.body.take 500
  let similar := dumpsSimilarList ((context.top_similar.getD []).take 3)
  sha256_hexdigest (content ++ ":" ++ similar)

/-! ## Cost accounting (`analyze_with_claude_optimized`, lines 639–670) -/

/-- Token usage reported by the LLM client; the two cache counts model
`getattr(message.usage, 'cache_..._input_tokens', 0)`. -/
structure Usage where
  input_tokens : ℕ
  output_tokens : ℕ
  cache_read_tokens : ℕ := 0
  cache_write_tokens : ℕ := 0
deriving Repr, DecidableEq

/-- `regular_input = input_tokens - cache_read_tokens - cache_write_tokens`:
Python int subtraction, so the result lives in `ℤ` and may be negative. -/
def regular_input (u : Usage) : ℤ :=
  (u.input_tokens : ℤ) - (u.cache_read_tokens : ℤ) - (u.cache_write_tokens : ℤ)

/-- `cache_write_cost = (cache_write_tokens / 1_000_000) * 3 * 1.25`. -/
def cache_write_cost (w : ℕ) : ℚ := ((w : ℚ) / 1000000) * 3 * 1.25

/-- `cache_read_cost = (cache_read_tokens / 1_000_000) * 3 * 0.1`. -/
def cache_read_cost (r : ℕ) : ℚ := ((r : ℚ) / 1000000) * 3 * 0.1

/-- `regular_input_cost = (regular_input / 1_000_000) * 3`. -/
def regular_input_cost (u : Usage) : ℚ := ((regular_input u : ℚ) / 1000000) * 3

/-- `output_cost = (output_tokens / 1_000_000) * 15`. -/
def output_cost (o : ℕ) : ℚ := ((o : ℚ) / 1000000) * 15

/-- `total_cost = regular_input_cost + cache_write_cost + cache_read_cost +
output_cost`. -/
def total_cost (u : Usage) : ℚ :=
  regular_input_cost u + cache_write_cost u.cache_write_tokens +
    cache_read_cost u.cache_read_tokens + output_cost u.output_tokens

/-- Round-half-even on a rational, the tie-breaking rule of Python's
builtin `round`. -/
def roundHalfEven (x : ℚ) : ℤ :=
  let f := ⌊x⌋
  if x - f < 1 / 2 then f
  else if 1 / 2 < x - f then f + 1
  else if f % 2 = 0 then f else f + 1

/-- Python `round(x, 4)`. -/
def roundTo4 (x : ℚ) : ℚ := (roundHalfEven (x * 10000) : ℚ) / 10000

/-- The `api_cost` dict attached to a fresh Claude result. -/
structure ApiCost where
  input_tokens : ℕ
  output_tokens : ℕ
  cache_read_tokens : ℕ
  cache_write_tokens : ℕ
  input_cost_usd : ℚ
  output_cost_usd : ℚ
  total_cost_usd : ℚ
deriving Repr, DecidableEq

/-- Lines 639–670: compute the rounded `api_cost` dict from the usage. -/
def computeApiCost (u : Usage) : ApiCost :=
  { input_tokens := u.input_tokens
  , output_tokens := u.output_tokens
  , cache_read_tokens := u.cache_read_tokens
  , cache_write_tokens := u.cache_write_tokens
  , input_cost_usd := roundTo4 (regular_input_cost u +
      cache_write_cost u.cache_write_tokens + cache_read_cost u.cache_read_tokens)
  , output_cost_usd := roundTo4 (output_cost u.output_tokens)
  , total_cost_usd := roundTo4 (total_cost u) }

/-! ## AI decision maker (`analyze_with_claude_optimized`) -/

/-- The decision fields parsed out of the model's JSON reply
(`json.loads(response_text)` after fence stripping). -/
structure LLMBase where
  decision : String
  primary_message : String
  evidence_bullets : List String
  draft_response : String
  action_button_text : String
  action_button_style : String
  related_links : List RelatedLink := []
deriving Repr, DecidableEq

/-- The result dict returned by `analyze_with_claude_optimized`.  `Option`
fields model keys that only some code paths set: the fallback dict has no
`from_cache` or `api_cost` key, and `cost_saved` is set only on a cache
hit. -/
structure Response where
  decision : String
  primary_message : String
  evidence_bullets : List String
  draft_response : String
  action_button_text : String
  action_button_style : String
  related_links : List RelatedLink := []
  api_cost : Option ApiCost := none
  from_cache : Option Bool := none
  cost_saved : Option ℚ := none
  error : Option String := none
deriving Repr, DecidableEq

/-- Lift the parsed LLM fields into a result dict. -/
def LLMBase.toResponse (b : LLMBase) : Response :=
  { decision := b.decision
  , primary_message := b.primary_message
  , evidence_bullets := b.evidence_bullets
  , draft_response := b.draft_response
  , action_button_text := b.action_button_text
  , action_button_style := b.action_button_style
  , related_links := b.related_links }

/-- The fallback dict of the `except` handler (lines 680–690). -/
def fallbackResponse (e : String) : Response :=
  { decision := "NEEDS_INVESTIGATION"
  , primary_message := "Could not analyze automatically"
  , evidence_bullets := ["AI analysis failed", "Needs manual review"]
  , draft_response := "Thanks for reporting! We'll review this shortly."
  , action_button_text := "Mark for Review"
  , action_button_style := "warning"
  , error := some e }

/-- The response cache (`claude_response_cache` table). -/
def RespCache : Type := CacheStore Response

/-- `TriageOptimizer._check_response_cache` (7-day entries, lazy expiry). -/
def check_response_cache (cache : RespCache) (now : ℕ) (key : String) :
    Option Response :=
  cacheGet cache now key

/-- `TriageOptimizer._save_response_cache`:
upsert with `expires_at = now + timedelta(days=7)` (604800 s). -/
def save_response_cache (cache : RespCache) (now : ℕ) (key : String)
    (response : Response) : RespCache :=
  cacheUpsert cache key response (now + 604800)

/-- An LLM oracle: the whole fallible front of the `try` block — the API
call plus JSON parsing.  `Except.error e` models any raised exception,
including `json.loads` failures on unparsable output. -/
def LLMOracle : Type := Issue → ContextDict → Except String (LLMBase × Usage)

/-- `TriageOptimizer.analyze_with_claude_optimized` as a state-passing
function over the response cache.  Cache hit: return the stored dict with
`from_cache = True` and `cost_saved = 0.015`.  Cache miss: run the oracle;
on success attach `api_cost` and `from_cache = False` and upsert the cache;
on any exception return the fallback dict and leave the cache untouched. -/
def analyze_with_claude_optimized (llm : LLMOracle) (now : ℕ)
    (cache : RespCache) (issue : Issue) (context : ContextDict) :
    Response × RespCache :=
  let cache_key := get_cache_key issue context
  match check_response_cache cache now cache_key with
  | some cached_response =>
      ({ cached_response with from_cache := some true, cost_saved := some 0.015 },
       cache)
  | none =>
    match llm issue context with
    | .ok (base, usage) =>
        let result : Response :=
          { base.toResponse with
              api_cost := some (computeApiCost usage), from_cache := some false }
        (result, save_response_cache cache now cache_key result)
    | .error e => (fallbackResponse e, cache)

/-! ## Decision normalizer (`_transform_analysis_result`, `api/triage.py`) -/

/-- An element of the `suggested_responses` list built by the normalizer. -/
structure SuggestedResponse where
  type : String
  title : String
  body : String
  actions : List String
deriving Repr, DecidableEq

/-- The loosely-typed analysis dict that `_transform_analysis_result`
patches in place.  `Option` fields model possibly-absent dict keys; the
list fields conflate an absent key with an empty list (the function only
ever `setdefault`s them to `[]` / reads their truthiness, which cannot
tell the two apart). -/
structure AnalysisResult where
  decision : Option String := none
  primary_category : Option String := none
  confidence : Option ℚ := none
  primary_message : Option String := none
  reasoning : Option String := none
  draft_response : Option String := none
  action_button_text : Option String := none
  action_button_style : Option String := none
  suggested_responses : List SuggestedResponse := []
  duplicate_of : Option String := none
  related_prs : List String := []
  doc_links : List String := []
  tags : List String := []
  priority_score : Option ℤ := none
  needs_response : Option Bool := none
deriving Repr, DecidableEq

/-- The `DECISION_TO_CATEGORY` lookup table. -/
def DECISION_TO_CATEGORY : List (String × String) :=
  [ ("CLOSE_DUPLICATE", "bug")
  , ("CLOSE_FIXED", "bug")
  , ("CLOSE_EXISTS", "feature_request")
  , ("NEEDS_INVESTIGATION", "bug")
  , ("VALID_FEATURE", "feature_request")
  , ("NEEDS_INFO", "question")
  , ("ANSWER_FROM_DOCS", "question")
  , ("INVALID", "low_priority") ]

/-- The `DECISION_TO_CONFIDENCE` lookup table. -/
def DECISION_TO_CONFIDENCE : List (String × ℚ) :=
  [ ("CLOSE_DUPLICATE", 0.95)
  , ("CLOSE_FIXED", 0.85)
  , ("CLOSE_EXISTS", 0.85)
  , ("NEEDS_INVESTIGATION", 0.70)
  , ("VALID_FEATURE", 0.80)
  , ("NEEDS_INFO", 0.75)
  , ("ANSWER_FROM_DOCS", 0.90)
  , ("INVALID", 0.65) ]

/-- The `priority_map` lookup table of the normalizer. -/
def priority_map : List (String × ℤ) :=
  [ ("CLOSE_DUPLICATE", 3)
  , ("NEEDS_INVESTIGATION", 8)
  , ("VALID_FEATURE", 6)
  , ("NEEDS_INFO", 5) ]

/-- The 8 decision enum values of the `TriageOptimizer` taxonomy. -/
def decisionEnum : List String :=
  [ "CLOSE_DUPLICATE", "CLOSE_FIXED", "CLOSE_EXISTS", "NEEDS_INVESTIGATION"
  , "VALID_FEATURE", "NEEDS_INFO", "ANSWER_FROM_DOCS", "INVALID" ]

/-- `_transform_analysis_result`: adds the legacy fields when a (truthy)
`decision` key is present; otherwise returns the dict unchanged. -/
def transform_analysis_result (r : AnalysisResult) : AnalysisResult :=
  match r.decision with
  | none => r
  | some d =>
    if d = "" then r   -- Python truthiness of `result.get('decision')`
    else
      let r := { r with primary_category := some ((DECISION_TO_CATEGORY.lookup d).getD "question") }
      let r := match r.confidence with
        | none => { r with confidence := some ((DECISION_TO_CONFIDENCE.lookup d).getD 0.75) }
        | some _ => r
      let r := match r.primary_message, r.reasoning with
        | some m, none => { r with reasoning := some m }
        | _, _ => r
      let r := match r.draft_response, r.suggested_responses with
        | some body, [] =>
            let action_text := r.action_button_text.getD "Post Comment"
            let response_type := r.action_button_style.getD "primary"
            { r with suggested_responses :=
                [ { type := response_type, title := action_text
                  , body := body, actions := [action_text] } ] }
        | _, _ => r
      let r := match r.priority_score with
        | none => { r with priority_score := some ((priority_map.lookup d).getD 5) }
        | some _ => r
      match r.needs_response with
      | none =>
          { r with needs_response := some (d == "NEEDS_INFO" || d == "ANSWER_FROM_DOCS") }
      | some _ => r

/-! ## Batch triage loop (`batch_triage_issues_task`, `api/triage.py` 102–124) -/

/-- The in-memory `batch_triage_status[project_id]` dict (the
`start_time` string is omitted — no claim reads it). -/
structure BatchStatus where
  status : String
  total : ℕ
  processed : ℕ
  current_issue : Option ℕ
  errors : List (ℕ × String)
deriving Repr, DecidableEq

/-- One pass of the `for i, issue_number in enumerate(issue_numbers, 1)`
body: set `current_issue`; on success set `processed = i` (the 1-based loop
index — not an incremented success counter); on an exception append to
`errors` and continue. -/
def batchStep (triage : ℕ → Except String Unit) (st : BatchStatus)
    (entry : ℕ × ℕ) : BatchStatus :=
  let st := { st with current_issue := some entry.2 }
  match triage entry.2 with
  | .ok _ => { st with processed := entry.1 }
  | .error e => { st with errors := st.errors ++ [(entry.2, e)] }

/-- The loop and completion part of `batch_triage_issues_task`, from the
status initialisation through the final `status = "completed"` /
`current_issue = None` writes.  `triage` models
`categorization_service.triage_issue`; per-issue exceptions are its
`Except.error` case. -/
def batch_triage_issues_task (triage : ℕ → Except String Unit)
    (issue_numbers : List ℕ) : BatchStatus :=
  let init : BatchStatus :=
    { status := "running", total := issue_numbers.length, processed := 0
    , current_issue := none, errors := [] }
  let final := (issue_numbers.enumFrom 1).foldl (batchStep triage) init
  { final with status := "completed", current_issue := none }

/-! ## Shape lemmas about the rule engine -/

/-- A RULE 3 match always carries decision `CLOSE_EXISTS`. -/
theorem applyRuleCode_decision (issue : Issue) (codes : List CodeMatch)
    (repo : Option String) (d : RuleDecision)
    (h : applyRuleCode issue codes repo = some d) : d.decision = "CLOSE_EXISTS" := by
  cases codes with
  | nil => simp [applyRuleCode] at h
  | cons c t =>
      simp only [applyRuleCode, List.head?_cons] at h
      split_ifs at h
      obtain rfl : existsDecision issue c repo = d := by injection h
      rfl

/-- A match of RULE 2 or later carries `ANSWER_FROM_DOCS` or `CLOSE_EXISTS`. -/
theorem applyRuleDocs_decision (issue : Issue) (codes : List CodeMatch)
    (docs : List DocLink) (repo : Option String) (d : RuleDecision)
    (h : applyRuleDocs issue codes docs repo = some d) :
    d.decision = "ANSWER_FROM_DOCS" ∨ d.decision = "CLOSE_EXISTS" := by
  cases docs with
  | nil =>
      simp only [applyRuleDocs, List.head?_nil] at h
      exact Or.inr (applyRuleCode_decision issue codes repo d h)
  | cons dl t =>
      simp only [applyRuleDocs, List.head?_cons] at h
      split_ifs at h
      · obtain rfl : docsDecision issue dl repo = d := by injection h
        exact Or.inl rfl
      · exact Or.inr (applyRuleCode_decision issue codes repo d h)

/-- RULE 3 falls through when the top code match does not strictly exceed
`CODE_THRESHOLD`. -/
theorem applyRuleCode_none_of_le (issue : Issue) (codes : List CodeMatch)
    (repo : Option String)
    (hcode : ∀ c ∈ codes.head?, c.similarity ≤ CODE_THRESHOLD) :
    applyRuleCode issue codes repo = none := by
  cases codes with
  | nil => rfl
  | cons c t =>
      have hc := hcode c (by simp)
      simp [applyRuleCode, not_lt.mpr hc]

/-- RULE 2 falls through to RULE 3 when the top doc match does not strictly
exceed `DOCS_THRESHOLD`. -/
theorem applyRuleDocs_eq_of_le (issue : Issue) (codes : List CodeMatch)
    (docs : List DocLink) (repo : Option String)
    (hdoc : ∀ dl ∈ docs.head?, dl.similarity ≤ DOCS_THRESHOLD) :
    applyRuleDocs issue codes docs repo = applyRuleCode issue codes repo := by
  cases docs with
  | nil => rfl
  | cons dl t =>
      have hd := hdoc dl (by simp)
      simp [applyRuleDocs, not_lt.mpr hd]

/-- When the top doc match is at or below `DOCS_THRESHOLD`, a rule match is
RULE 1 or RULE 3. -/
theorem apply_smart_rules_decision_of_docs_le (issue : Issue)
    (sims : List SimilarIssue) (codes : List CodeMatch) (docs : List DocLink)
    (repo : Option String) (d : RuleDecision)
    (hdoc : ∀ dl ∈ docs.head?, dl.similarity ≤ DOCS_THRESHOLD)
    (h : apply_smart_rules issue sims codes docs repo = some d) :
    d.decision = "CLOSE_DUPLICATE" ∨ d.decision = "CLOSE_EXISTS" := by
  have hdocs := applyRuleDocs_eq_of_le issue codes docs repo hdoc
  cases sims with
  | nil =>
      simp only [apply_smart_rules, List.head?_nil, hdocs] at h
      exact Or.inr (applyRuleCode_decision issue codes repo d h)
  | cons s t =>
      simp only [apply_smart_rules, List.head?_cons, hdocs] at h
      split_ifs at h
      · obtain rfl : duplicateDecision issue s repo = d := by injection h
        exact Or.inl rfl
      · exact Or.inr (applyRuleCode_decision issue codes repo d h)

/-- When the top code match is at or below `CODE_THRESHOLD`, a rule match is
RULE 1 or RULE 2. -/
theorem apply_smart_rules_decision_of_code_le (issue : Issue)
    (sims : List SimilarIssue) (codes : List CodeMatch) (docs : List DocLink)
    (repo : Option String) (d : RuleDecision)
    (hcode : ∀ c ∈ codes.head?, c.similarity ≤ CODE_THRESHOLD)
    (h : apply_smart_rules issue sims codes docs repo = some d) :
    d.decision = "CLOSE_DUPLICATE" ∨ d.decision = "ANSWER_FROM_DOCS" := by
  have hnone := applyRuleCode_none_of_le issue codes repo hcode
  cases sims with
  | nil =>
      simp only [apply_smart_rules, List.head?_nil] at h
      rcases applyRuleDocs_decision issue codes docs repo d h with h' | h'
      · exact Or.inr h'
      · exfalso
        cases docs with
        | nil => simp [applyRuleDocs, hnone] at h
        | cons dl t =>
            simp only [applyRuleDocs, List.head?_cons] at h
            split_ifs at h with hif
            · obtain rfl : docsDecision issue dl repo = d := by injection h
              exact absurd h' (by simp [docsDecision])
            · simp [hnone] at h
  | cons s t =>
      simp only [apply_smart_rules, List.head?_cons] at h
      split_ifs at h
      · obtain rfl : duplicateDecision issue s repo = d := by injection h
        exact Or.inl rfl
      · rcases applyRuleDocs_decision issue codes docs repo d h with h' | h'
        · exact Or.inr h'
        · exfalso
          cases docs with
          | nil => simp [applyRuleDocs, hnone] at h
          | cons dl u =>
              simp only [applyRuleDocs, List.head?_cons] at h
              split_ifs at h with hif
              · obtain rfl : docsDecision issue dl repo = d := by injection h
                exact absurd h' (by simp [docsDecision])
              · simp [hnone] at h

/-! ## C2: threshold strictness -/

/-- C2: the rule engine compares similarities strictly against its
thresholds.  A top similar issue at exactly 0.95 never yields
`CLOSE_DUPLICATE`; a top doc match at exactly 0.80 never yields
`ANSWER_FROM_DOCS`; a top code match at exactly 0.80 never yields
`CLOSE_EXISTS`; a top similar issue at 0.951 always yields
`CLOSE_DUPLICATE`; when no threshold is strictly exceeded,
`apply_smart_rules` returns `none`. -/
theorem claim_C2_threshold_strictness (issue : Issue)
    (sims : List SimilarIssue) (codes : List CodeMatch) (docs : List DocLink)
    (repo : Option String) :
    ((∃ s, sims.head? = some s ∧ s.similarity = 0.95) →
      (apply_smart_rules issue sims codes docs repo).map RuleDecision.decision ≠
        some "CLOSE_DUPLICATE")
    ∧ ((∃ dl, docs.head? = some dl ∧ dl.similarity = 0.80) →
      (apply_smart_rules issue sims codes docs repo).map RuleDecision.decision ≠
        some "ANSWER_FROM_DOCS")
    ∧ ((∃ c, codes.head? = some c ∧ c.similarity = 0.80) →
      (apply_smart_rules issue sims codes docs repo).map RuleDecision.decision ≠
        some "CLOSE_EXISTS")
    ∧ ((∃ s, sims.head? = some s ∧ s.similarity = 0.951) →
      (apply_smart_rules issue sims codes docs repo).map RuleDecision.decision =
        some "CLOSE_DUPLICATE")
    ∧ ((∀ s ∈ sims.head?, s.similarity ≤ DUPLICATE_THRESHOLD) →
       (∀ dl ∈ docs.head?, dl.similarity ≤ DOCS_THRESHOLD) →
       (∀ c ∈ codes.head?, c.similarity ≤ CODE_THRESHOLD) →
      apply_smart_rules issue sims codes docs repo = none) := by
  refine ⟨?_, ?_, ?_, ?_, ?_⟩
  · rintro ⟨s, hs, hsim⟩ hcontra
    obtain ⟨d, hd, hdec⟩ := Option.map_eq_some'.mp hcontra
    cases sims with
    | nil => simp at hs
    | cons a t =>
        rw [List.head?_cons] at hs
        obtain rfl : a = s := by injection hs
        simp only [apply_smart_rules, List.head?_cons] at hd
        rw [if_neg (by rw [hsim]; norm_num [DUPLICATE_THRESHOLD])] at hd
        rcases applyRuleDocs_decision issue codes docs repo d hd with h' | h' <;>
          rw [h'] at hdec <;> exact absurd hdec (by decide)
  · rintro ⟨dl, hdl, hsim⟩ hcontra
    obtain ⟨d, hd, hdec⟩ := Option.map_eq_some'.mp hcontra
    have hdoc : ∀ x ∈ docs.head?, x.similarity ≤ DOCS_THRESHOLD := by
      intro x hx
      rw [hdl] at hx
      obtain rfl : dl = x := by injection hx
      rw [hsim]
      norm_num [DOCS_THRESHOLD]
    rcases apply_smart_rules_decision_of_docs_le issue sims codes docs repo d hdoc hd
      with h' | h' <;> rw [h'] at hdec <;> exact absurd hdec (by decide)
  · rintro ⟨c, hc, hsim⟩ hcontra
    obtain ⟨d, hd, hdec⟩ := Option.map_eq_some'.mp hcontra
    have hcode : ∀ x ∈ codes.head?, x.similarity ≤ CODE_THRESHOLD := by
      intro x hx
      rw [hc] at hx
      obtain rfl : c = x := by injection hx
      rw [hsim]
      norm_num [CODE_THRESHOLD]
    rcases apply_smart_rules_decision_of_code_le issue sims codes docs repo d hcode hd
      with h' | h' <;> rw [h'] at hdec <;> exact absurd hdec (by decide)
  · rintro ⟨s, hs, hsim⟩
    cases sims with
    | nil => simp at hs
    | cons a t =>
        rw [List.head?_cons] at hs
        obtain rfl : a = s := by injection hs
        simp only [apply_smart_rules, List.head?_cons]
        rw [if_pos (by rw [hsim]; norm_num [DUPLICATE_THRESHOLD])]
        rfl
  · intro hs hdoc hcode
    have hdocs := applyRuleDocs_eq_of_le issue codes docs repo hdoc
    have hnone := applyRuleCode_none_of_le issue codes repo hcode
    cases sims with
    | nil => simp [apply_smart_rules, hdocs, hnone]
    | cons a t =>
        have ha := hs a (by simp)
        simp [apply_smart_rules, not_lt.mpr ha, hdocs, hnone]

/-- Issue used by the rule-engine witnesses. -/
def issueC2 : Issue := { issue_number := 1, title := "App crashes on launch" }

/-- A top similar issue at exactly the duplicate threshold. -/
def simAt95 : SimilarIssue :=
  { issue_number := 42, title := "crash", similarity := 0.95, state := "open" }

/-- A top similar issue just above the duplicate threshold. -/
def simAt951 : SimilarIssue :=
  { issue_number := 42, title := "crash", similarity := 0.951, state := "open" }

/-- Witness for C2 at concrete inputs: a top similar issue at exactly 0.95
with no other evidence does not close as duplicate (the engine returns no
rule match at all), and at 0.951 it does. -/
theorem claim_C2_witness :
    (apply_smart_rules issueC2 [simAt95] [] [] none).map RuleDecision.decision ≠
        some "CLOSE_DUPLICATE"
    ∧ (apply_smart_rules issueC2 [simAt951] [] [] none).map RuleDecision.decision =
        some "CLOSE_DUPLICATE"
    ∧ apply_smart_rules issueC2 [simAt95] [] [] none = none :=
  ⟨(claim_C2_threshold_strictness issueC2 [simAt95] [] [] none).1 ⟨simAt95, rfl, rfl⟩,
   (claim_C2_threshold_strictness issueC2 [simAt951] [] [] none).2.2.2.1
     ⟨simAt951, rfl, rfl⟩,
   (claim_C2_threshold_strictness issueC2 [simAt95] [] [] none).2.2.2.2
     (by rintro s hs
         rw [List.head?_cons] at hs
         obtain rfl : simAt95 = s := by injection hs
         norm_num [simAt95, DUPLICATE_THRESHOLD])
     (by rintro dl hdl; simp at hdl)
     (by rintro c hc; simp at hc)⟩

/-! ## C3: rule priority -/

/-- C3: first match wins.  Whenever the top similar issue strictly exceeds
the duplicate threshold, `apply_smart_rules` returns exactly the single
RULE 1 `CLOSE_DUPLICATE` decision — even when the top doc match also
strictly exceeds the docs threshold — and never `ANSWER_FROM_DOCS`.
(The return type `Option RuleDecision` makes "exactly one decision, no
stacking" structural.) -/
theorem claim_C3_rule_priority (issue : Issue) (sims : List SimilarIssue)
    (codes : List CodeMatch) (docs : List DocLink) (repo : Option String)
    (s : SimilarIssue) (dl : DocLink)
    (hs : sims.head? = some s) (hsim : DUPLICATE_THRESHOLD < s.similarity)
    (hdl : docs.head? = some dl) (hdsim : DOCS_THRESHOLD < dl.similarity) :
    apply_smart_rules issue sims codes docs repo =
        some (duplicateDecision issue s repo)
    ∧ (duplicateDecision issue s repo).decision = "CLOSE_DUPLICATE"
    ∧ (duplicateDecision issue s repo).decision ≠ "ANSWER_FROM_DOCS" := by
  refine ⟨?_, rfl, by show ("CLOSE_DUPLICATE" : String) ≠ "ANSWER_FROM_DOCS"; decide⟩
  cases sims with
  | nil => simp at hs
  | cons a t =>
      rw [List.head?_cons] at hs
      obtain rfl : a = s := by injection hs
      simp [apply_smart_rules, hsim]

/-- Issue used by the rule-priority witness. -/
def issueC3 : Issue := { issue_number := 5, title := "App crashes on launch" }

/-- A duplicate match at similarity 0.97. -/
def simC3 : SimilarIssue :=
  { issue_number := 42, title := "App crash", similarity := 0.97, state := "open" }

/-- A docs match at similarity 0.85. -/
def docC3 : DocLink := { filename := "docs/crash.md", similarity := 0.85 }

/-- Witness for C3: duplicate at 0.97 and doc match at 0.85 — the result is
the single `CLOSE_DUPLICATE` decision. -/
theorem claim_C3_witness :
    apply_smart_rules issueC3 [simC3] [] [docC3] none =
        some (duplicateDecision issueC3 simC3 none)
    ∧ (duplicateDecision issueC3 simC3 none).decision = "CLOSE_DUPLICATE"
    ∧ (duplicateDecision issueC3 simC3 none).decision ≠ "ANSWER_FROM_DOCS" :=
  claim_C3_rule_priority issueC3 [simC3] [] [docC3] none simC3 docC3 rfl
    (by norm_num [simC3, DUPLICATE_THRESHOLD]) rfl
    (by norm_num [docC3, DOCS_THRESHOLD])

/-! ## Cache-hit plumbing -/

/-- Reading a key right after `_save_response_cache` stored it, within the
7-day TTL, returns the stored response. -/
theorem check_save_response_cache (cache : RespCache) (now t2 : ℕ) (k : String)
    (r : Response) (ht : t2 < now + 604800) :
    check_response_cache (save_response_cache cache now k r) t2 k = some r := by
  simp [check_response_cache, save_response_cache, cacheGet,
    cacheFind_cacheUpsert_self, ht]

/-! ## C1: the response-cache key and the evidence (code bug) -/

/-- Issue used by the cache-key evaluation. -/
def issueC1 : Issue :=
  { issue_number := 10, title := "App crashes on launch", body := "Crash at startup." }

/-- A top-3 similar-issue evidence set with identifiers 41, 42, 43. -/
def simsTopA : List SimilarIssue :=
  [ { issue_number := 41, title := "Crash A", similarity := 0.7, state := "open" }
  , { issue_number := 42, title := "Crash B", similarity := 0.65, state := "closed" }
  , { issue_number := 43, title := "Crash C", similarity := 0.62, state := "open" } ]

/-- A top-3 similar-issue evidence set with identifiers 71, 72, 73. -/
def simsTopB : List SimilarIssue :=
  [ { issue_number := 71, title := "Other A", similarity := 0.7, state := "open" }
  , { issue_number := 72, title := "Other B", similarity := 0.65, state := "open" }
  , { issue_number := 73, title := "Other C", similarity := 0.62, state := "open" } ]

/-- A parsed LLM reply used by the oracle fixtures. -/
def baseW : LLMBase :=
  { decision := "VALID_FEATURE"
  , primary_message := "Looks like a reasonable feature request"
  , evidence_bullets := ["No similar issue found", "Needs team review"]
  , draft_response := "Thanks for the suggestion!"
  , action_button_text := "Add to Roadmap"
  , action_button_style := "primary" }

/-- A token-usage report used by the oracle fixtures. -/
def usageW : Usage :=
  { input_tokens := 1200, output_tokens := 150
  , cache_read_tokens := 1000, cache_write_tokens := 0 }

/-- An always-succeeding LLM oracle. -/
def llmOkW : LLMOracle := fun _ _ => Except.ok (baseW, usageW)

/-- An always-raising LLM oracle (API unavailable). -/
def llmDownW : LLMOracle := fun _ _ => Except.error "LLM unavailable"

/-- Appending the same string on the right is cancellative. -/
theorem string_append_right_cancel {a b r : String} (h : a ++ r = b ++ r) : a = b := by
  apply String.ext
  have hd : a.data ++ r.data = b.data ++ r.data := by
    simpa [String.data_append] using congrArg String.data h
  exact List.append_cancel_right hd

/-- Two issues with equal bodies but different titles get different cache
keys (for contexts agreeing on `top_similar`): the key preimage is
`title : body[:500] : dumps(top_similar[:3])` and the suffix after the
title is shared, so the preimages differ. -/
theorem get_cache_key_ne_of_title_ne (i1 i2 : Issue) (c1 c2 : ContextDict)
    (hb : i1.body = i2.body) (hc : c1.top_similar = c2.top_similar)
    (ht : i1.title ≠ i2.title) :
    get_cache_key i1 c1 ≠ get_cache_key i2 c2 := by
  unfold get_cache_key sha256_hexdigest
  rw [hb, hc]
  intro h
  apply ht
  have h' : i1.title ++ (":" ++ (i2.body.take 500 ++ (":" ++
        dumpsSimilarList ((c2.top_similar.getD []).take 3)))) =
      i2.title ++ (":" ++ (i2.body.take 500 ++ (":" ++
        dumpsSimilarList ((c2.top_similar.getD []).take 3)))) := by
    simpa [String.append_assoc] using h
  exact string_append_right_cancel h'

/-- After a successful store under key `get_cache_key issue c1`, any second
request whose cache key coincides (within the TTL) is served from cache. -/
theorem analyze_hit_after_store (llm llm2 : LLMOracle) (now t2 : ℕ)
    (cache : RespCache) (issue issue2 : Issue) (c1 c2 : ContextDict)
    (base : LLMBase) (usage : Usage)
    (hmiss : check_response_cache cache now (get_cache_key issue c1) = none)
    (hllm : llm issue c1 = Except.ok (base, usage))
    (hkey : get_cache_key issue2 c2 = get_cache_key issue c1)
    (ht : t2 < now + 604800) :
    (analyze_with_claude_optimized llm2 t2
        (analyze_with_claude_optimized llm now cache issue c1).2 issue2
        c2).1.from_cache = some true := by
  simp only [analyze_with_claude_optimized, hmiss, hllm, hkey]
  rw [check_save_response_cache cache now t2 (get_cache_key issue c1) _ ht]

/-- The pipeline context carrying evidence set A. -/
def ctxA : ContextDict := mkTriageContext simsTopA [] [] [] [] []

/-- The pipeline context carrying evidence set B. -/
def ctxB : ContextDict := mkTriageContext simsTopB [] [] [] [] []

/-- C1 (code bug, evaluated): the pipeline context built by
`analyze_issue_for_triage` stores the evidence under the key
`similar_issues`, while `_get_cache_key` reads `context.get('top_similar')`
— so two evidence sets with entirely different top-3 identifier sets
produce the SAME cache key, and the second request is served from cache
(`from_cache = true`) instead of missing.  Changing the title does change
the key. -/
theorem claim_C1_cache_key_ignores_evidence :
    get_cache_key issueC1 ctxA = get_cache_key issueC1 ctxB
    ∧ simsTopA.map SimilarIssue.issue_number ≠ simsTopB.map SimilarIssue.issue_number
    ∧ get_cache_key { issueC1 with title := "App crashes on startup" } ctxA ≠
        get_cache_key issueC1 ctxA
    ∧ (analyze_with_claude_optimized llmDownW 100
          (analyze_with_claude_optimized llmOkW 0 (CacheStore.empty Response) issueC1
            ctxA).2 issueC1 ctxB).1.from_cache = some true :=
  ⟨rfl, by decide,
   get_cache_key_ne_of_title_ne _ _ _ _ rfl rfl (by decide),
   analyze_hit_after_store llmOkW llmDownW 0 100 (CacheStore.empty Response) issueC1
     issueC1 ctxA ctxB baseW usageW rfl rfl rfl (by norm_num)⟩

/-! ## C4: idempotent caching of the AI decision -/

/-- C4: after a first successful `analyze_with_claude_optimized` call on a
cache miss, a second call within the 7-day TTL with the identical issue and
evidence context is answered entirely from the response cache: it returns
the first call's result with `from_cache = true` and the fixed
`cost_saved = 0.015` patched in, leaves the cache unchanged, and never
consults the LLM — the second call's oracle `llm2` is arbitrary. -/
theorem claim_C4_idempotent_caching (llm llm2 : LLMOracle) (now t2 : ℕ)
    (cache : RespCache) (issue : Issue) (context : ContextDict)
    (base : LLMBase) (usage : Usage)
    (hmiss : check_response_cache cache now (get_cache_key issue context) = none)
    (hllm : llm issue context = Except.ok (base, usage))
    (ht : t2 < now + 604800) :
    analyze_with_claude_optimized llm2 t2
        (analyze_with_claude_optimized llm now cache issue context).2 issue context =
      ({ (analyze_with_claude_optimized llm now cache issue context).1 with
          from_cache := some true, cost_saved := some 0.015 },
       (analyze_with_claude_optimized llm now cache issue context).2) := by
  simp only [analyze_with_claude_optimized, hmiss, hllm]
  rw [check_save_response_cache cache now t2 (get_cache_key issue context) _ ht]

/-- Context fixture: the pipeline context with no evidence at all. -/
def ctxW : ContextDict := mkTriageContext [] [] [] [] [] []

/-- Issue fixture for the caching and fallback witnesses. -/
def issueW : Issue :=
  { issue_number := 2, title := "Add dark mode", body := "Please add dark mode" }

/-- Witness for C4 at concrete inputs: first call at time 0 on an empty
cache with a succeeding oracle, second call at time 3600 with the LLM
down — the second call is a pure cache hit. -/
theorem claim_C4_witness :
    analyze_with_claude_optimized llmDownW 3600
        (analyze_with_claude_optimized llmOkW 0 (CacheStore.empty Response) issueW ctxW).2
        issueW ctxW =
      ({ (analyze_with_claude_optimized llmOkW 0 (CacheStore.empty Response) issueW ctxW).1
          with from_cache := some true, cost_saved := some 0.015 },
       (analyze_with_claude_optimized llmOkW 0 (CacheStore.empty Response) issueW ctxW).2) :=
  claim_C4_idempotent_caching llmOkW llmDownW 0 3600 (CacheStore.empty Response)
    issueW ctxW baseW usageW rfl rfl (by norm_num)

/-! ## C6: fallback decision on LLM failure -/

/-- C6: on a cache miss, if the LLM call raises (or its output fails JSON
parsing — both are the oracle's `error` case), the decision maker returns
the fallback dict: `decision = NEEDS_INVESTIGATION`, the generic message,
and a populated `error` field.  The embedding is a total function, so no
exception reaches the caller. -/
theorem claim_C6_llm_failure_fallback (llm : LLMOracle) (now : ℕ)
    (cache : RespCache) (issue : Issue) (context : ContextDict) (e : String)
    (hmiss : check_response_cache cache now (get_cache_key issue context) = none)
    (herr : llm issue context = Except.error e) :
    (analyze_with_claude_optimized llm now cache issue context).1 = fallbackResponse e
    ∧ (analyze_with_claude_optimized llm now cache issue context).1.decision =
        "NEEDS_INVESTIGATION"
    ∧ (analyze_with_claude_optimized llm now cache issue context).1.primary_message =
        "Could not analyze automatically"
    ∧ (analyze_with_claude_optimized llm now cache issue context).1.error = some e := by
  refine ⟨?_, ?_, ?_, ?_⟩ <;>
    simp [analyze_with_claude_optimized, hmiss, herr, fallbackResponse]

/-- Witness for C6: empty cache, LLM down — the fallback dict comes back. -/
theorem claim_C6_witness :
    (analyze_with_claude_optimized llmDownW 0 (CacheStore.empty Response) issueW
        ctxW).1 = fallbackResponse "LLM unavailable"
    ∧ (analyze_with_claude_optimized llmDownW 0 (CacheStore.empty Response) issueW
        ctxW).1.decision = "NEEDS_INVESTIGATION"
    ∧ (analyze_with_claude_optimized llmDownW 0 (CacheStore.empty Response) issueW
        ctxW).1.primary_message = "Could not analyze automatically"
    ∧ (analyze_with_claude_optimized llmDownW 0 (CacheStore.empty Response) issueW
        ctxW).1.error = some "LLM unavailable" :=
  claim_C6_llm_failure_fallback llmDownW 0 (CacheStore.empty Response) issueW ctxW
    "LLM unavailable" rfl rfl

/-! ## C10: the fallback is never cached -/

/-- C10: on the exception path the response cache is left untouched — the
fallback is not stored under the request's key — so a later identical
request (here at time `t2`, still a miss) runs the LLM again and returns a
fresh, non-cached result instead of a cached fallback. -/
theorem claim_C10_fallback_not_cached (llm llm2 : LLMOracle) (now t2 : ℕ)
    (cache : RespCache) (issue : Issue) (context : ContextDict) (e : String)
    (base : LLMBase) (usage : Usage)
    (hmiss : check_response_cache cache now (get_cache_key issue context) = none)
    (herr : llm issue context = Except.error e)
    (hmiss2 : check_response_cache cache t2 (get_cache_key issue context) = none)
    (hok : llm2 issue context = Except.ok (base, usage)) :
    (analyze_with_claude_optimized llm now cache issue context).2 = cache
    ∧ (analyze_with_claude_optimized llm2 t2
        (analyze_with_claude_optimized llm now cache issue context).2 issue
        context).1.from_cache = some false := by
  have h2 : (analyze_with_claude_optimized llm now cache issue context).2 = cache := by
    simp [analyze_with_claude_optimized, hmiss, herr]
  refine ⟨h2, ?_⟩
  rw [h2]
  simp [analyze_with_claude_optimized, hmiss2, hok]

/-- Witness for C10: LLM down at time 0 on the empty cache; the cache stays
empty and a retry at time 50 with a working oracle yields a fresh result. -/
theorem claim_C10_witness :
    (analyze_with_claude_optimized llmDownW 0 (CacheStore.empty Response) issueW
        ctxW).2 = CacheStore.empty Response
    ∧ (analyze_with_claude_optimized llmOkW 50
        (analyze_with_claude_optimized llmDownW 0 (CacheStore.empty Response) issueW
          ctxW).2 issueW ctxW).1.from_cache = some false :=
  claim_C10_fallback_not_cached llmDownW llmOkW 0 50 (CacheStore.empty Response)
    issueW ctxW "LLM unavailable" baseW usageW rfl rfl rfl rfl

/-! ## C5: normalizer totality -/

/-- C5: for every one of the 8 decision enum values, on an analysis dict
that lacks `confidence`, `priority_score` and `needs_response`, the
normalizer `_transform_analysis_result` produces a non-null
`primary_category` via the fixed lookup table (with the bug /
feature_request / question / low_priority grouping of the claim), a
confidence from the fixed table lying in [0.65, 0.95] and maximal exactly
for `CLOSE_DUPLICATE`, a non-null `priority_score`, and a boolean
`needs_response` that is true exactly for `NEEDS_INFO` and
`ANSWER_FROM_DOCS`. -/
theorem claim_C5_normalizer_totality (r : AnalysisResult) (d : String)
    (hd : r.decision = some d) (hmem : d ∈ decisionEnum)
    (hconf : r.confidence = none) (hprio : r.priority_score = none)
    (hneeds : r.needs_response = none) :
    (transform_analysis_result r).primary_category =
        some ((DECISION_TO_CATEGORY.lookup d).getD "question")
    ∧ ((d = "CLOSE_DUPLICATE" ∨ d = "CLOSE_FIXED" ∨ d = "NEEDS_INVESTIGATION") →
        (transform_analysis_result r).primary_category = some "bug")
    ∧ ((d = "CLOSE_EXISTS" ∨ d = "VALID_FEATURE") →
        (transform_analysis_result r).primary_category = some "feature_request")
    ∧ ((d = "NEEDS_INFO" ∨ d = "ANSWER_FROM_DOCS") →
        (transform_analysis_result r).primary_category = some "question")
    ∧ (d = "INVALID" →
        (transform_analysis_result r).primary_category = some "low_priority")
    ∧ (transform_analysis_result r).confidence =
        some ((DECISION_TO_CONFIDENCE.lookup d).getD 0.75)
    ∧ 0.65 ≤ (DECISION_TO_CONFIDENCE.lookup d).getD 0.75
    ∧ (DECISION_TO_CONFIDENCE.lookup d).getD 0.75 ≤ 0.95
    ∧ (d = "CLOSE_DUPLICATE" ↔ (DECISION_TO_CONFIDENCE.lookup d).getD 0.75 = 0.95)
    ∧ ((transform_analysis_result r).priority_score).isSome = true
    ∧ (transform_analysis_result r).needs_response =
        some (d == "NEEDS_INFO" || d == "ANSWER_FROM_DOCS") := by
  simp only [decisionEnum, List.mem_cons, List.not_mem_nil, or_false] at hmem
  rcases hr1 : r.primary_message with _ | m <;>
    rcases hr2 : r.reasoning with _ | re <;>
    rcases hr3 : r.draft_response with _ | body <;>
    rcases hr4 : r.suggested_responses with _ | ⟨s0, srest⟩ <;>
    rcases hmem with rfl | rfl | rfl | rfl | rfl | rfl | rfl | rfl <;>
    simp [transform_analysis_result, hd, hconf, hprio, hneeds, hr1, hr2, hr3, hr4,
      DECISION_TO_CATEGORY, DECISION_TO_CONFIDENCE, priority_map, List.lookup] <;>
    norm_num

/-- Analysis dict fixture for the normalizer witness. -/
def resC5 : AnalysisResult :=
  { decision := some "NEEDS_INFO"
  , primary_message := some "Missing reproduction steps"
  , draft_response := some "Could you share the steps to reproduce?"
  , action_button_text := some "Request Info"
  , action_button_style := some "warning" }

/-- Witness for C5 on a concrete `NEEDS_INFO` dict. -/
theorem claim_C5_witness :
    (transform_analysis_result resC5).primary_category =
        some ((DECISION_TO_CATEGORY.lookup "NEEDS_INFO").getD "question")
    ∧ ((("NEEDS_INFO" : String) = "CLOSE_DUPLICATE" ∨ ("NEEDS_INFO" : String) = "CLOSE_FIXED"
          ∨ ("NEEDS_INFO" : String) = "NEEDS_INVESTIGATION") →
        (transform_analysis_result resC5).primary_category = some "bug")
    ∧ ((("NEEDS_INFO" : String) = "CLOSE_EXISTS" ∨ ("NEEDS_INFO" : String) = "VALID_FEATURE") →
        (transform_analysis_result resC5).primary_category = some "feature_request")
    ∧ ((("NEEDS_INFO" : String) = "NEEDS_INFO" ∨ ("NEEDS_INFO" : String) = "ANSWER_FROM_DOCS") →
        (transform_analysis_result resC5).primary_category = some "question")
    ∧ (("NEEDS_INFO" : String) = "INVALID" →
        (transform_analysis_result resC5).primary_category = some "low_priority")
    ∧ (transform_analysis_result resC5).confidence =
        some ((DECISION_TO_CONFIDENCE.lookup "NEEDS_INFO").getD 0.75)
    ∧ 0.65 ≤ (DECISION_TO_CONFIDENCE.lookup "NEEDS_INFO").getD 0.75
    ∧ (DECISION_TO_CONFIDENCE.lookup "NEEDS_INFO").getD 0.75 ≤ 0.95
    ∧ (("NEEDS_INFO" : String) = "CLOSE_DUPLICATE" ↔
        (DECISION_TO_CONFIDENCE.lookup "NEEDS_INFO").getD 0.75 = 0.95)
    ∧ ((transform_analysis_result resC5).priority_score).isSome = true
    ∧ (transform_analysis_result resC5).needs_response =
        some (("NEEDS_INFO" : String) == "NEEDS_INFO"
          || ("NEEDS_INFO" : String) == "ANSWER_FROM_DOCS") :=
  claim_C5_normalizer_totality resC5 "NEEDS_INFO" rfl (by decide) rfl rfl rfl

/-! ## C7: cost accounting -/

/-- Modelled from the spec's wording of step 7 of the AI decision maker,
for refinement comparison with the code's `total_cost`: regular
(non-cached) input tokens at the full input rate, cache-write tokens at
1.25× the input rate, cache-read tokens at 0.1× the input rate, output
tokens at the output rate. -/
def specTotalCost (u : Usage) : ℚ :=
  (regular_input u : ℚ) * (3 / 1000000)
    + (u.cache_write_tokens : ℚ) * (3 / 1000000) * 1.25
    + (u.cache_read_tokens : ℚ) * (3 / 1000000) * 0.1
    + (u.output_tokens : ℚ) * (15 / 1000000)

/-- Round-half-even of a nonnegative rational is nonnegative. -/
theorem roundHalfEven_nonneg (x : ℚ) (hx : 0 ≤ x) : 0 ≤ roundHalfEven x := by
  unfold roundHalfEven
  have hf : (0 : ℤ) ≤ ⌊x⌋ := Int.floor_nonneg.mpr hx
  dsimp only
  split_ifs <;> omega

/-- Python `round(x, 4)` of a nonnegative rational is nonnegative. -/
theorem roundTo4_nonneg (x : ℚ) (hx : 0 ≤ x) : 0 ≤ roundTo4 x := by
  unfold roundTo4
  have h := roundHalfEven_nonneg (x * 10000) (by positivity)
  exact div_nonneg (by exact_mod_cast h) (by norm_num)

/-- A usage report whose cache counters exceed `input_tokens`. -/
def usageBad : Usage :=
  { input_tokens := 0, output_tokens := 0
  , cache_read_tokens := 1000000, cache_write_tokens := 0 }

/-- Counterexample to C7 as stated: with one million cache-read tokens and
zero `input_tokens`, `regular_input` is a negative Python int and the
computed `total_cost_usd` is −2.7 dollars — "total_cost_usd >= 0 always"
fails on the code. -/
theorem claim_C7_counterexample :
    (computeApiCost usageBad).total_cost_usd < 0 ∧ total_cost usageBad < 0 := by
  have h1 : total_cost usageBad = -27 / 10 := by
    norm_num [total_cost, usageBad, regular_input_cost, regular_input,
      cache_write_cost, cache_read_cost, output_cost]
  have hv : roundTo4 (-27 / 10 : ℚ) = -27 / 10 := by
    norm_num [roundTo4, roundHalfEven]
  refine ⟨?_, by rw [h1]; norm_num⟩
  rw [show (computeApiCost usageBad).total_cost_usd = roundTo4 (total_cost usageBad)
    from rfl, h1, hv]
  norm_num

/-- C7 amended: the code's `total_cost` coincides with the spec's rate
formula; whenever the cache token counters do not exceed `input_tokens`
(the only situation the counterexample rules out) the total and the
rounded stored `total_cost_usd` are nonnegative; and `N` cache-read tokens
always cost strictly less than `N` regular input tokens. -/
theorem claim_C7_cost_accounting_amended (u : Usage) (n : ℕ) (hn : 0 < n)
    (hle : u.cache_read_tokens + u.cache_write_tokens ≤ u.input_tokens) :
    total_cost u = specTotalCost u
    ∧ (computeApiCost u).total_cost_usd = roundTo4 (specTotalCost u)
    ∧ 0 ≤ total_cost u
    ∧ 0 ≤ (computeApiCost u).total_cost_usd
    ∧ cache_read_cost n <
        regular_input_cost { input_tokens := n, output_tokens := 0 } := by
  have heq : total_cost u = specTotalCost u := by
    unfold total_cost specTotalCost regular_input_cost cache_write_cost
      cache_read_cost output_cost
    ring
  have hri : (0 : ℤ) ≤ regular_input u := by
    unfold regular_input
    omega
  have h0 : 0 ≤ total_cost u := by
    unfold total_cost regular_input_cost cache_write_cost cache_read_cost output_cost
    have h1 : (0 : ℚ) ≤ (regular_input u : ℚ) := by exact_mod_cast hri
    have t1 : (0 : ℚ) ≤ ((regular_input u : ℚ) / 1000000) * 3 :=
      mul_nonneg (div_nonneg h1 (by norm_num)) (by norm_num)
    have t2 : (0 : ℚ) ≤ ((u.cache_write_tokens : ℚ) / 1000000) * 3 * 1.25 := by positivity
    have t3 : (0 : ℚ) ≤ ((u.cache_read_tokens : ℚ) / 1000000) * 3 * 0.1 := by positivity
    have t4 : (0 : ℚ) ≤ ((u.output_tokens : ℚ) / 1000000) * 15 := by positivity
    linarith
  have hround : 0 ≤ roundTo4 (total_cost u) := roundTo4_nonneg _ h0
  have hlt : cache_read_cost n <
      regular_input_cost { input_tokens := n, output_tokens := 0 } := by
    unfold cache_read_cost regular_input_cost regular_input
    have hn' : (0 : ℚ) < (n : ℚ) := by exact_mod_cast hn
    push_cast
    nlinarith
  exact ⟨heq, by rw [show (computeApiCost u).total_cost_usd = roundTo4 (total_cost u)
      from rfl, heq], h0, by rw [show (computeApiCost u).total_cost_usd =
      roundTo4 (total_cost u) from rfl]; exact hround, hlt⟩

/-- A consistent usage report (cache counters within `input_tokens`). -/
def usageGood : Usage :=
  { input_tokens := 1500, output_tokens := 100
  , cache_read_tokens := 1000, cache_write_tokens := 200 }

/-- Witness for the amended C7 at a concrete usage report and N = 7. -/
theorem claim_C7_witness :
    total_cost usageGood = specTotalCost usageGood
    ∧ (computeApiCost usageGood).total_cost_usd = roundTo4 (specTotalCost usageGood)
    ∧ 0 ≤ total_cost usageGood
    ∧ 0 ≤ (computeApiCost usageGood).total_cost_usd
    ∧ cache_read_cost 7 <
        regular_input_cost { input_tokens := 7, output_tokens := 0 } :=
  claim_C7_cost_accounting_amended usageGood 7 (by decide) (by decide)

/-! ## C8: external search degradation -/

/-- A Stack Overflow item whose URL will appear twice in a reply. -/
def soDupItem : SOItem :=
  { title := "Same question", link := "https://stackoverflow.com/q/1"
  , score := 5, is_answered := some true }

/-- An HTTP oracle returning status 200 with a duplicated-URL item list. -/
def soDupHttp : SORequest → Except Unit (HttpReply SOItem) :=
  fun _ => Except.ok { status_code := 200, items := [soDupItem, soDupItem] }

/-- Issue fixture for the search theorems. -/
def issueC8 : Issue := { issue_number := 7, title := "How to configure the widget" }

/-- Counterexample to C8 as stated: the searches perform no URL
deduplication — a 200 reply with the same URL twice is returned and cached
with the duplicate intact — and the Q&A-site search proceeds without any
credentials and returns non-empty results (only the code-host search
requires a token). -/
theorem claim_C8_counterexample :
    ((search_stackoverflow none soDupHttp 0 (CacheStore.empty (List SOResult))
        issueC8).1.map SOResult.url) =
      ["https://stackoverflow.com/q/1", "https://stackoverflow.com/q/1"]
    ∧ (search_stackoverflow none soDupHttp 0 (CacheStore.empty (List SOResult))
        issueC8).1 ≠ []
    ∧ cacheFind (search_stackoverflow none soDupHttp 0 (CacheStore.empty (List SOResult))
          issueC8).2 (soCacheKey issueC8) =
        some ((search_stackoverflow none soDupHttp 0 (CacheStore.empty (List SOResult))
          issueC8).1, 86400) := by
  refine ⟨by decide, by decide, by decide⟩

/-- C8 amended: each search keeps at most the top-5 results per source, in
API order and without URL deduplication; a transport failure or a non-200
status degrades to an empty list (the functions are total — nothing is
raised); the code-host search returns empty without credentials, while the
Q&A-site search needs no credentials and proceeds without a key. -/
theorem claim_C8_search_degradation_amended
    (so_key gh_token : Option String) (tok : String)
    (so_http : SORequest → Except Unit (HttpReply SOItem))
    (gh_http : String → Except Unit (HttpReply GHItem))
    (now : ℕ) (ic1 : CacheStore (List SOResult)) (ic2 : CacheStore (List GHResult))
    (issue : Issue) (so_reply : HttpReply SOItem) (gh_reply : HttpReply GHItem)
    (hm1 : cacheGet ic1 now (soCacheKey issue) = none)
    (hm2 : cacheGet ic2 now (ghCacheKey issue) = none) :
    (search_stackoverflow so_key so_http now ic1 issue).1.length ≤ 5
    ∧ (so_http { q := issue.title, key := so_key } = Except.error () →
        search_stackoverflow so_key so_http now ic1 issue = ([], ic1))
    ∧ (so_http { q := issue.title, key := so_key } = Except.ok so_reply →
        so_reply.status_code ≠ 200 →
        search_stackoverflow so_key so_http now ic1 issue = ([], ic1))
    ∧ (gh_token = none → search_github_issues gh_token gh_http now ic2 issue = ([], ic2))
    ∧ (search_github_issues gh_token gh_http now ic2 issue).1.length ≤ 5
    ∧ (gh_token = some tok → gh_http (issue.title ++ " type:issue") = Except.error () →
        search_github_issues gh_token gh_http now ic2 issue = ([], ic2))
    ∧ (gh_token = some tok → gh_http (issue.title ++ " type:issue") = Except.ok gh_reply →
        gh_reply.status_code ≠ 200 →
        search_github_issues gh_token gh_http now ic2 issue = ([], ic2)) := by
  refine ⟨?_, ?_, ?_, ?_, ?_, ?_, ?_⟩
  · rcases h : so_http { q := issue.title, key := so_key } with _ | reply
    · simp [search_stackoverflow, hm1, h]
    · by_cases hs : reply.status_code = 200
      · simp [search_stackoverflow, hm1, h, hs, List.length_take]
      · simp [search_stackoverflow, hm1, h, hs]
  · intro h
    simp [search_stackoverflow, hm1, h]
  · intro h hs
    simp [search_stackoverflow, hm1, h, hs]
  · intro h
    subst h
    rfl
  · rcases gh_token with _ | t
    · simp [search_github_issues]
    · rcases h : gh_http (issue.title ++ " type:issue") with _ | reply
      · simp [search_github_issues, hm2, h]
      · by_cases hs : reply.status_code = 200
        · simp [search_github_issues, hm2, h, hs, List.length_take]
        · simp [search_github_issues, hm2, h, hs]
  · rintro rfl h
    simp [search_github_issues, hm2, h]
  · rintro rfl h hs
    simp [search_github_issues, hm2, h, hs]

/-- An always-failing (timeout) Stack Overflow HTTP oracle. -/
def soErrHttp : SORequest → Except Unit (HttpReply SOItem) := fun _ => Except.error ()

/-- A 403 GitHub search reply. -/
def gh403 : HttpReply GHItem := { status_code := 403, items := [] }

/-- A GitHub HTTP oracle answering 403 to everything. -/
def ghHttp403 : String → Except Unit (HttpReply GHItem) := fun _ => Except.ok gh403

/-- A 500 Stack Overflow reply. -/
def so500 : HttpReply SOItem := { status_code := 500, items := [] }

/-- Witness for the amended C8: Stack Overflow times out, GitHub answers
403 — both searches return the empty list and leave the cache unchanged. -/
theorem claim_C8_witness :
    (search_stackoverflow none soErrHttp 0 (CacheStore.empty (List SOResult))
        issueC8).1.length ≤ 5
    ∧ (soErrHttp { q := issueC8.title, key := none } = Except.error () →
        search_stackoverflow none soErrHttp 0 (CacheStore.empty (List SOResult)) issueC8 =
          ([], CacheStore.empty (List SOResult)))
    ∧ (soErrHttp { q := issueC8.title, key := none } = Except.ok so500 →
        so500.status_code ≠ 200 →
        search_stackoverflow none soErrHttp 0 (CacheStore.empty (List SOResult)) issueC8 =
          ([], CacheStore.empty (List SOResult)))
    ∧ ((some "token" : Option String) = none →
        search_github_issues (some "token") ghHttp403 0
          (CacheStore.empty (List GHResult)) issueC8 =
          ([], CacheStore.empty (List GHResult)))
    ∧ (search_github_issues (some "token") ghHttp403 0
        (CacheStore.empty (List GHResult)) issueC8).1.length ≤ 5
    ∧ ((some "token" : Option String) = some "token" →
        ghHttp403 (issueC8.title ++ " type:issue") = Except.error () →
        search_github_issues (some "token") ghHttp403 0
          (CacheStore.empty (List GHResult)) issueC8 =
          ([], CacheStore.empty (List GHResult)))
    ∧ ((some "token" : Option String) = some "token" →
        ghHttp403 (issueC8.title ++ " type:issue") = Except.ok gh403 →
        gh403.status_code ≠ 200 →
        search_github_issues (some "token") ghHttp403 0
          (CacheStore.empty (List GHResult)) issueC8 =
          ([], CacheStore.empty (List GHResult))) :=
  claim_C8_search_degradation_amended none (some "token") "token" soErrHttp ghHttp403 0
    (CacheStore.empty (List SOResult)) (CacheStore.empty (List GHResult)) issueC8
    so500 gh403 rfl rfl

/-! ## C9: batch partial failure -/

/-- A triage oracle that raises exactly on issue number 3. -/
def triageFailsOn3 : ℕ → Except String Unit :=
  fun n => if n = 3 then Except.error "boom" else Except.ok ()

/-- Counterexample to C9 as stated: over issues 1–5 with issue 3 raising,
the final status does report one error for issue 3 and `completed`, but its
`processed` counter reads 5, not 4 — the loop body assigns the 1-based loop
index on success (`processed = i`) instead of counting successes. -/
theorem claim_C9_counterexample :
    (batch_triage_issues_task triageFailsOn3 [1, 2, 3, 4, 5]).processed = 5
    ∧ ¬ (batch_triage_issues_task triageFailsOn3 [1, 2, 3, 4, 5]).processed = 4
    ∧ (batch_triage_issues_task triageFailsOn3 [1, 2, 3, 4, 5]).errors = [(3, "boom")]
    ∧ (batch_triage_issues_task triageFailsOn3 [1, 2, 3, 4, 5]).status = "completed" := by
  refine ⟨by decide, by decide, by decide, by decide⟩

/-- C9 amended: when triaging 5 issues and issue #3 raises, the loop
continues through issues 4 and 5, the batch ends with status `completed`
(not `failed`) and exactly one error entry carrying issue number 3 — but
the `processed` counter reports 5 (the loop index of the last successful
issue), not a count of 4 successes. -/
theorem claim_C9_batch_partial_failure_amended
    (triage : ℕ → Except String Unit) (msg : String)
    (h1 : triage 1 = Except.ok ()) (h2 : triage 2 = Except.ok ())
    (h3 : triage 3 = Except.error msg)
    (h4 : triage 4 = Except.ok ()) (h5 : triage 5 = Except.ok ()) :
    (batch_triage_issues_task triage [1, 2, 3, 4, 5]).status = "completed"
    ∧ (batch_triage_issues_task triage [1, 2, 3, 4, 5]).errors = [(3, msg)]
    ∧ (batch_triage_issues_task triage [1, 2, 3, 4, 5]).processed = 5
    ∧ (batch_triage_issues_task triage [1, 2, 3, 4, 5]).total = 5
    ∧ (batch_triage_issues_task triage [1, 2, 3, 4, 5]).current_issue = none := by
  refine ⟨?_, ?_, ?_, ?_, ?_⟩ <;>
    simp [batch_triage_issues_task, batchStep, List.enumFrom, h1, h2, h3, h4, h5]

/-- A triage oracle failing on issue 3 with a database timeout. -/
def triageW : ℕ → Except String Unit :=
  fun n => if n = 3 then Except.error "db timeout" else Except.ok ()

/-- Witness for the amended C9 with a concrete oracle and error message. -/
theorem claim_C9_witness :
    (batch_triage_issues_task triageW [1, 2, 3, 4, 5]).status = "completed"
    ∧ (batch_triage_issues_task triageW [1, 2, 3, 4, 5]).errors = [(3, "db timeout")]
    ∧ (batch_triage_issues_task triageW [1, 2, 3, 4, 5]).processed = 5
    ∧ (batch_triage_issues_task triageW [1, 2, 3, 4, 5]).total = 5
    ∧ (batch_triage_issues_task triageW [1, 2, 3, 4, 5]).current_issue = none :=
  claim_C9_batch_partial_failure_amended triageW "db timeout" rfl rfl rfl rfl rfl

end Snorlax
